import Mathlib

/-!
Shallow embedding of the smart-streetlight dashboard (dashboard_streetlight.py):
the message decoder (`_on_message`), the connect callback (`_on_connect`),
the queue-draining state reducer (`process_queue`) and the statistics engine
(`calculate_statistics`), together with theorems settling the specification
claims about them.

Modelling conventions:
- Python floats are modelled as exact rationals (ℚ); parse failures are
  `Option.none` (Python `None`).
- `datetime` values are modelled as natural numbers via a mixed-radix
  linearisation that preserves chronological order.
- Python strings are manipulated as `List Char` (`String.toList`), with
  helper functions mirroring `str.split`, `str.strip`, slicing and
  `startswith`/`endswith` exactly.
- The MQTT queue is a list of tagged items drained in FIFO order.
-/

set_option maxRecDepth 10000

namespace Dashboard

/-- The sensor topic constant `MQTT_TOPIC_SENSOR` from the configuration block. -/
def MQTT_TOPIC_SENSOR : String := "iot/streetlight"

/-- Python `s.split(c)` for a single-character separator: at least one part,
empty parts preserved. -/
def splitOnChar (c : Char) : List Char → List (List Char)
  | [] => [[]]
  | x :: xs =>
      let r := splitOnChar c xs
      if x = c then [] :: r
      else
        match r with
        | p :: ps => (x :: p) :: ps
        | [] => [[x]]

/-- Python `s.strip()`: remove leading and trailing whitespace. -/
def stripChars (l : List Char) : List Char :=
  ((l.dropWhile Char.isWhitespace).reverse.dropWhile Char.isWhitespace).reverse

/-- Decimal value of a digit string (used only under an all-digits guard). -/
def digitsVal (l : List Char) : Nat :=
  l.foldl (fun a c => a * 10 + (c.toNat - 48)) 0

/-- Parse a non-empty all-digits string as a natural number. -/
def digitsToNat (l : List Char) : Option Nat :=
  if l ≠ [] ∧ l.all Char.isDigit then some (digitsVal l) else none

/-- Models Python `float(s)` restricted to plain decimal notation
(optional sign, digits, optional single decimal point); returns `none`
where `float()` raises `ValueError`.  Exotic accepted forms of `float()`
(exponents, `inf`/`nan`, underscores) are outside the wire format and
not modelled. -/
def parseFloat (s : List Char) : Option ℚ :=
  let sign : ℚ := if s.head? = some '-' then -1 else 1
  let body := if s.head? = some '-' ∨ s.head? = some '+' then s.drop 1 else s
  match splitOnChar '.' body with
  | [ip] => (digitsToNat ip).map (fun n => sign * (n : ℚ))
  | [ip, fp] =>
      if ip.isEmpty && fp.isEmpty then none
      else if (ip.isEmpty || ip.all Char.isDigit) && (fp.isEmpty || fp.all Char.isDigit) then
        some (sign * ((digitsVal ip : ℚ) + (digitsVal fp : ℚ) / (10 : ℚ) ^ fp.length))
      else none
  | _ => none

/-- Models `datetime.strptime(s, "%Y-%m-%d %H:%M:%S")`: the six numeric
fields with their range checks, linearised into a ℕ by a mixed radix that
preserves chronological ordering.  (Per-month day counts and strptime's
field-width details are not needed by any claim and are not modelled.) -/
def parseTimestamp (s : List Char) : Option Nat :=
  match splitOnChar ' ' s with
  | [date, tod] =>
    match splitOnChar '-' date, splitOnChar ':' tod with
    | [y, mo, d], [h, mi, se] =>
      match digitsToNat y, digitsToNat mo, digitsToNat d,
          digitsToNat h, digitsToNat mi, digitsToNat se with
      | some yn, some mon, some dn, some hn, some min_n, some sec_n =>
          if 1 ≤ mon ∧ mon ≤ 12 ∧ 1 ≤ dn ∧ dn ≤ 31 ∧ hn ≤ 23 ∧ min_n ≤ 59 ∧ sec_n ≤ 59 then
            some (((((yn * 13 + mon) * 32 + dn) * 24 + hn) * 60 + min_n) * 60 + sec_n)
          else none
      | _, _, _, _, _, _ => none
    | _, _ => none
  | _ => none

/-- The relay/lamp derivation of `_on_message` lines 134-143:
`voltage == 0.0` gives ("MATI", "MENYALA") (relay off, lamp on),
`voltage == 220.0` gives ("AKTIF", "MATI"), anything else — including an
absent voltage, since in Python `None == 0.0` is `False` — gives
("UNKNOWN", "UNKNOWN").  Returns (relay_state, lamp_state). -/
def deriveStates (voltage : Option ℚ) : String × String :=
  if voltage = some 0 then ("MATI", "MENYALA")
  else if voltage = some 220 then ("AKTIF", "MATI")
  else ("UNKNOWN", "UNKNOWN")

/-- The `data` dictionary pushed by `_on_message` for a decoded reading. -/
structure SensorData where
  timestamp : Nat
  intensity : Option ℚ
  voltage : Option ℚ
  relay_state : String
  lamp_state : String
deriving DecidableEq, Repr

/-- The field handling of `_on_message` (lines 112-156): require exactly 3
split parts, strip each, parse intensity/voltage leniently (absent on
failure), parse the timestamp (current wall-clock time `now` on failure),
and derive relay/lamp state from the voltage.  Returns `none` exactly when
no sensor event is pushed. -/
def decodeParts (now : Nat) : List (List Char) → Option SensorData
  | [p0, p1, p2] =>
      let intensity := parseFloat (stripChars p1)
      let voltage := parseFloat (stripChars p2)
      let timestamp := (parseTimestamp (stripChars p0)).getD now
      let st := deriveStates voltage
      some ⟨timestamp, intensity, voltage, st.1, st.2⟩
  | _ => none

/-- The wrapper check and brace stripping of `_on_message`
(`payload.startswith("{") and payload.endswith("}")`, `payload[1:-1]`,
`split(";")`), feeding `decodeParts`. -/
def decodeMessage (now : Nat) (payload : String) : Option SensorData :=
  let cs := payload.toList
  if cs.head? = some '{' ∧ cs.getLast? = some '}' then
    decodeParts now (splitOnChar ';' ((cs.drop 1).dropLast))
  else none

/-- A queue item (`GLOBAL_MQ` entry).  The three tagged shapes pushed by the
callbacks, plus `other`, standing for any item whose `_type` is absent or not
one of "status"/"error"/"sensor" (no `process_queue` branch matches it). -/
inductive Item where
  | status (connected : Bool) (message : String)
  | error (message : String)
  | sensor (data : SensorData)
  | other
deriving DecidableEq, Repr

/-- What `_on_message` pushes onto `GLOBAL_MQ` for a given payload:
one sensor event when decoding yields a reading, nothing otherwise. -/
def onMessage (now : Nat) (payload : String) : List Item :=
  match decodeMessage now payload with
  | some d => [Item.sensor d]
  | none => []

example : parseTimestamp "2024-01-01 12:30:45".toList =
    some (((((2024 * 13 + 1) * 32 + 1) * 24 + 12) * 60 + 30) * 60 + 45) := by decide
example : parseFloat "220.0".toList = some 220 := by with_unfolding_all decide
example : parseFloat "abc".toList = none := by decide
example : decodeMessage 0 "2024-01-01 12:30:45;35;220.0\x7d" = none := by decide
example : decodeMessage 7 "\x7bxx;abc;220.0\x7d" = some ⟨7, none, some 220, "AKTIF", "MATI"⟩ := by
  with_unfolding_all decide
example : decodeMessage 7 "\x7bx;10;0.0\x7d" = some ⟨7, some 10, some 0, "MATI", "MENYALA"⟩ := by
  with_unfolding_all decide

/-- The effects of the `_on_connect` callback (lines 76-100). -/
structure ConnectEffects where
  subscriptions : List String
  pushed : List Item
deriving DecidableEq, Repr

/-- The `error_messages` mapping of `_on_connect` (lines 87-93): the five
reason codes with fixed strings; `.get(rc, default)` is modelled by
`Option.getD` at the call site. -/
def error_messages (rc : Nat) : Option String :=
  if rc = 1 then some "Incorrect protocol version"
  else if rc = 2 then some "Invalid client identifier"
  else if rc = 3 then some "Server unavailable"
  else if rc = 4 then some "Bad username or password"
  else if rc = 5 then some "Not authorized"
  else none

/-- The `_on_connect` callback (lines 76-100): on `rc == 0` subscribe to the
sensor topic and push a connected StatusEvent; otherwise push a disconnected
StatusEvent whose message embeds the mapped reason string. -/
def on_connect (rc : Nat) : ConnectEffects :=
  if rc = 0 then
    ⟨[MQTT_TOPIC_SENSOR], [Item.status true "✅ Terhubung ke broker"]⟩
  else
    let error_msg := (error_messages rc).getD ("Error code: " ++ toString rc)
    ⟨[], [Item.status false ("❌ Koneksi gagal: " ++ error_msg)]⟩

/-- A row of `st.session_state.logs`, as built in `process_queue`
(lines 246-253): the decoded sensor fields plus the `source` tag. -/
structure Row where
  timestamp : Nat
  intensity : Option ℚ
  voltage : Option ℚ
  relay_state : String
  lamp_state : String
  source : String
deriving DecidableEq, Repr

/-- The row `process_queue` appends for a sensor event's `data` dict. -/
def mkRow (d : SensorData) : Row :=
  ⟨d.timestamp, d.intensity, d.voltage, d.relay_state, d.lamp_state, "MQTT REAL"⟩

/-- Python `logs[-n:]`: the last `n` elements (all of them when fewer). -/
def takeLast (n : Nat) (l : List α) : List α := l.drop (l.length - n)

/-- The shared `st.session_state` fields `process_queue` mutates. -/
structure AppState where
  logs : List Row
  last_data : Option Row
  mqtt_connected : Bool
  connection_status : String
  connection_error : String
deriving DecidableEq, Repr

/-- `st.session_state` as initialised at the top of the script
(lines 39-55). -/
def initState : AppState := ⟨[], none, false, "❌ TIDAK TERKONEKSI", ""⟩

/-- One iteration of the `process_queue` drain loop (lines 226-263): the
branch dispatch on `item.get("_type")`.  Returns the mutated state and
whether this item set `updated = True` (an unmatched `_type` leaves both
state and `updated` untouched). -/
def applyItem (s : AppState) (item : Item) : AppState × Bool :=
  match item with
  | .status c m => ({ s with mqtt_connected := c, connection_status := m }, true)
  | .error m => ({ s with connection_error := m }, true)
  | .sensor d =>
      let row := mkRow d
      let logs1 := s.logs ++ [row]
      let logs2 := if logs1.length > 5000 then takeLast 5000 logs1 else logs1
      ({ s with logs := logs2, last_data := some row }, true)
  | .other => (s, false)

/-- The drain loop of `process_queue` with its `updated` accumulator. -/
def process_queue_loop (s : AppState) (updated : Bool) : List Item → AppState × Bool
  | [] => (s, updated)
  | i :: rest =>
      let r := applyItem s i
      process_queue_loop r.1 (updated || r.2) rest

/-- `process_queue()` (lines 221-270): drain the queue contents `items` in
FIFO order into the shared state, returning the new state and the `updated`
flag. -/
def process_queue (s : AppState) (items : List Item) : AppState × Bool :=
  process_queue_loop s false items

/-- An item sets `updated = True` exactly when its `_type` matches one of the
three handled tags. -/
def isApplied : Item → Bool
  | .other => false
  | _ => true

/-- The rows that the sensor events of a queue snapshot turn into, in
arrival order. -/
def sensorRows (items : List Item) : List Row :=
  items.filterMap (fun i =>
    match i with
    | .sensor d => some (mkRow d)
    | _ => none)

/-- The `latest_timestamp` field of the statistics dict: either the
"N/A" sentinel or a timestamp (which the source then renders with
`strftime("%H:%M:%S")` — a display detail not modelled). -/
inductive TsOut where
  | na : TsOut
  | time (t : Nat) : TsOut
deriving DecidableEq, Repr

/-- The dict returned by `calculate_statistics` (keys in source order). -/
structure Stats where
  avg_intensity : ℚ
  avg_voltage : ℚ
  lamp_on_percentage : ℚ
  total_data : Nat
  latest_timestamp : TsOut
deriving DecidableEq, Repr

/-- Models `pandas.Series.mean()` over a column with missing entries:
`None`/NaN values are skipped in both numerator and denominator.  (Called
only under the source's not-all-absent guard, so the denominator is
nonzero there.) -/
def seriesMean (l : List (Option ℚ)) : ℚ :=
  (l.filterMap id).sum / ((l.filterMap id).length : ℚ)

/-- Floor of a rational as floor division of numerator by denominator
(a computable restatement of `Int.floor` on ℚ). -/
def ratFloor (q : ℚ) : ℤ := Int.fdiv q.num q.den

/-- Python `round(q)` to the nearest integer, ties to even (modelled
exactly on ℚ; the source applies it to IEEE doubles, whose representation
error is not modelled). -/
def roundHalfEven (q : ℚ) : ℤ :=
  let f := ratFloor q
  if q - (f : ℚ) < 1/2 then f
  else if 1/2 < q - (f : ℚ) then f + 1
  else if f % 2 = 0 then f else f + 1

/-- `round(x, 1)` as used at lines 312-314. -/
def round1 (q : ℚ) : ℚ := (roundHalfEven (q * 10) : ℚ) / 10

/-- Models `df["timestamp"].max()`: maximum of the timestamp column
(meaningful only for a non-empty log, which the source guarantees). -/
def maxTimestamp (logs : List Row) : Nat :=
  logs.foldl (fun a r => Nat.max a r.timestamp) 0

/-- `calculate_statistics()` (lines 273-317): the empty-log early return,
then the pandas aggregates — mean of the present intensity/voltage values
(0 when the column is all-absent), the "MENYALA" share, the row count and
the maximum timestamp — each average and percentage rounded to one decimal.
(The source's second `df.empty` early return is unreachable given a
non-empty `logs` list and is subsumed by the first.) -/
def calculate_statistics (logs : List Row) : Stats :=
  if logs.isEmpty then
    ⟨0, 0, 0, 0, TsOut.na⟩
  else
    let intensities := logs.map (fun r => r.intensity)
    let voltages := logs.map (fun r => r.voltage)
    let avg_intensity := if intensities.all (fun v => v.isNone) then 0 else seriesMean intensities
    let avg_voltage := if voltages.all (fun v => v.isNone) then 0 else seriesMean voltages
    let lamp_on_count := (logs.filter (fun r => r.lamp_state = "MENYALA")).length
    let lamp_on_percentage :=
      if logs.length > 0 then ((lamp_on_count : ℚ) / (logs.length : ℚ)) * 100 else 0
    ⟨round1 avg_intensity, round1 avg_voltage, round1 lamp_on_percentage,
      logs.length, TsOut.time (maxTimestamp logs)⟩

/-- The specification's formulation of the average (comparison definition
following the spec's words, not the source): the arithmetic mean of the
present values, 0 when none are present. -/
def specAvgPresent (l : List (Option ℚ)) : ℚ :=
  if (l.filterMap id).isEmpty then 0
  else (l.filterMap id).sum / ((l.filterMap id).length : ℚ)

/-- Three readings with intensities 1, 2, 2 (mean 5/3, which rounds
to 1.7). -/
def c5log : List Row :=
  [⟨0, some 1, none, "UNKNOWN", "UNKNOWN", "MQTT REAL"⟩,
   ⟨0, some 2, none, "UNKNOWN", "UNKNOWN", "MQTT REAL"⟩,
   ⟨0, some 2, none, "UNKNOWN", "UNKNOWN", "MQTT REAL"⟩]

/-- Two readings arriving out of chronological order: the later-timestamped
one first. -/
def c6log : List Row :=
  [⟨2, some 1, some 0, "MATI", "MENYALA", "MQTT REAL"⟩,
   ⟨1, some 2, some 0, "MATI", "MENYALA", "MQTT REAL"⟩]

/-! ## Helper lemmas -/

lemma applyItem_snd (s : AppState) (i : Item) : (applyItem s i).2 = isApplied i := by
  cases i <;> rfl

lemma process_queue_loop_snd (items : List Item) :
    ∀ (s : AppState) (u : Bool),
      (process_queue_loop s u items).2 = (u || items.any isApplied) := by
  induction items with
  | nil => intro s u; simp [process_queue_loop]
  | cons i t ih =>
      intro s u
      simp only [process_queue_loop, List.any_cons]
      rw [ih, applyItem_snd, Bool.or_assoc]

lemma process_queue_loop_other (post : List Item) :
    ∀ (pre : List Item) (s : AppState) (u : Bool),
      process_queue_loop s u (pre ++ Item.other :: post)
        = process_queue_loop s u (pre ++ post) := by
  intro pre
  induction pre with
  | nil => intro s u; simp [process_queue_loop, applyItem]
  | cons i t ih =>
      intro s u
      simp only [List.cons_append, process_queue_loop]
      exact ih _ _

lemma decodeParts_length_ne (now : Nat) {l : List (List Char)} (h : l.length ≠ 3) :
    decodeParts now l = none := by
  rcases l with _ | ⟨a, _ | ⟨b, _ | ⟨c, _ | ⟨e, t⟩⟩⟩⟩
  · rfl
  · rfl
  · rfl
  · simp at h
  · rfl

lemma decodeParts_derives (now : Nat) (l : List (List Char)) (d : SensorData)
    (h : decodeParts now l = some d) :
    d.relay_state = (deriveStates d.voltage).1 ∧
    d.lamp_state = (deriveStates d.voltage).2 := by
  rcases l with _ | ⟨a, _ | ⟨b, _ | ⟨c, _ | ⟨e, t⟩⟩⟩⟩
  · exact absurd h (by simp [decodeParts])
  · exact absurd h (by simp [decodeParts])
  · exact absurd h (by simp [decodeParts])
  · rw [show decodeParts now [a, b, c] = some ⟨(parseTimestamp (stripChars a)).getD now,
      parseFloat (stripChars b), parseFloat (stripChars c),
      (deriveStates (parseFloat (stripChars c))).1,
      (deriveStates (parseFloat (stripChars c))).2⟩ from rfl] at h
    injection h with h'
    subst h'
    exact ⟨rfl, rfl⟩
  · exact absurd h (by simp [decodeParts])

lemma error_msg_cases (rc : Nat) :
    (error_messages rc).getD ("Error code: " ++ toString rc)
      = (if rc = 1 then "Incorrect protocol version"
        else if rc = 2 then "Invalid client identifier"
        else if rc = 3 then "Server unavailable"
        else if rc = 4 then "Bad username or password"
        else if rc = 5 then "Not authorized"
        else "Error code: " ++ toString rc) := by
  unfold error_messages
  split_ifs <;> rfl

lemma filterMap_id_isEmpty (l : List (Option ℚ)) :
    (l.filterMap id).isEmpty = l.all (fun v => v.isNone) := by
  induction l with
  | nil => rfl
  | cons a t ih =>
      cases a with
      | none => simpa using ih
      | some x => simp

lemma round1_zero : round1 0 = 0 := by with_unfolding_all decide

lemma le_foldl_max (l : List Nat) : ∀ a : Nat, a ≤ l.foldl Nat.max a := by
  induction l with
  | nil => intro a; simp
  | cons x t ih =>
      intro a
      exact le_trans (Nat.le_max_left a x) (ih (Nat.max a x))

lemma foldl_max_ge_mem (l : List Nat) : ∀ a : Nat, ∀ x ∈ l, x ≤ l.foldl Nat.max a := by
  induction l with
  | nil => intro a x hx; simp at hx
  | cons y t ih =>
      intro a x hx
      rcases List.mem_cons.mp hx with h | h
      · subst h
        exact le_trans (Nat.le_max_right a x) (le_foldl_max t (Nat.max a x))
      · exact ih (Nat.max a y) x h

lemma foldl_max_mem (l : List Nat) :
    ∀ a : Nat, l.foldl Nat.max a = a ∨ l.foldl Nat.max a ∈ l := by
  induction l with
  | nil => intro a; exact Or.inl rfl
  | cons y t ih =>
      intro a
      rcases ih (Nat.max a y) with h | h
      · rcases Nat.le_total a y with hle | hle
        · right
          rw [List.foldl_cons, h, show Nat.max a y = y from Nat.max_eq_right hle]
          exact List.mem_cons_self y t
        · left
          rw [List.foldl_cons, h, show Nat.max a y = a from Nat.max_eq_left hle]
      · exact Or.inr (List.mem_cons_of_mem y h)

lemma maxTimestamp_eq (logs : List Row) :
    maxTimestamp logs = (logs.map (fun r => r.timestamp)).foldl Nat.max 0 := by
  unfold maxTimestamp
  rw [List.foldl_map]

/-! ## Claim theorems -/

/-- C7: on an empty reading log the statistics engine returns
avgIntensity = 0, avgVoltage = 0, lampOnPercentage = 0, totalCount = 0 and
the "N/A" sentinel timestamp; being a total function, it raises nothing. -/
theorem calculate_statistics_empty_log :
    calculate_statistics [] = ⟨0, 0, 0, 0, TsOut.na⟩ := rfl

/-- C8: `process_queue` reports `True` exactly when at least one drained
item was applied to shared state; on an empty queue it changes no state and
returns `False`, so repeated empty-queue calls stay no-ops. -/
theorem process_queue_updated_iff (s : AppState) :
    process_queue s [] = (s, false) ∧
    ∀ items : List Item,
      ((process_queue s items).2 = true ↔ ∃ i ∈ items, isApplied i = true) := by
  constructor
  · rfl
  · intro items
    unfold process_queue
    rw [process_queue_loop_snd]
    simp [List.any_eq_true]

/-- Witness for C8: the empty queue is a no-op on the initial state, and a
queue holding one error event makes the tick report an update. -/
theorem process_queue_updated_iff_witness :
    process_queue initState [] = (initState, false) ∧
    (process_queue initState [Item.error "x"]).2 = true :=
  ⟨(process_queue_updated_iff initState).1,
   ((process_queue_updated_iff initState).2 [Item.error "x"]).mpr
     ⟨Item.error "x", by simp, rfl⟩⟩

/-- C10: a queue item whose `_type` is absent or not one of
"status"/"error"/"sensor" is silently discarded: it mutates nothing, does not
set the `updated` flag, and dropping it from any queue leaves the tick's
result unchanged. -/
theorem process_queue_discards_unknown (s : AppState) (pre post : List Item) :
    applyItem s Item.other = (s, false) ∧
    process_queue s (pre ++ Item.other :: post) = process_queue s (pre ++ post) :=
  ⟨rfl, process_queue_loop_other post pre s false⟩

/-- C9: on result code 0 the connect callback subscribes to the sensor topic
and pushes a connected status event; on a nonzero code it pushes a
disconnected status event whose message contains the fixed reason string for
codes 1-5 and "Error code: N" for any other code N. -/
theorem on_connect_cases (rc : Nat) :
    (rc = 0 → on_connect rc
        = ⟨[MQTT_TOPIC_SENSOR], [Item.status true "✅ Terhubung ke broker"]⟩) ∧
    (rc ≠ 0 → ∃ m : String, on_connect rc = ⟨[], [Item.status false m]⟩ ∧
      ∃ a b : String,
        m = a ++ (if rc = 1 then "Incorrect protocol version"
          else if rc = 2 then "Invalid client identifier"
          else if rc = 3 then "Server unavailable"
          else if rc = 4 then "Bad username or password"
          else if rc = 5 then "Not authorized"
          else "Error code: " ++ toString rc) ++ b) := by
  constructor
  · intro h; subst h; rfl
  · intro h
    refine ⟨"❌ Koneksi gagal: " ++ (error_messages rc).getD ("Error code: " ++ toString rc),
      ?_, "❌ Koneksi gagal: ", "", ?_⟩
    · unfold on_connect
      rw [if_neg h]
    · rw [← error_msg_cases rc, String.append_empty]

/-- C3: a payload failing the brace-wrapper check, or whose brace-stripped
content does not split on `;` into exactly 3 parts, decodes to nothing and
pushes no event of any kind onto the queue. -/
theorem decode_malformed_dropped (now : Nat) (payload : String)
    (h : ¬ (payload.toList.head? = some '{' ∧ payload.toList.getLast? = some '}') ∨
      (splitOnChar ';' ((payload.toList.drop 1).dropLast)).length ≠ 3) :
    decodeMessage now payload = none ∧ onMessage now payload = [] := by
  have hd : decodeMessage now payload = none := by
    unfold decodeMessage
    by_cases hc : (payload.toList.head? = some '{' ∧ payload.toList.getLast? = some '}')
    · rcases h with h | h
      · exact absurd hc h
      · rw [if_pos hc]
        exact decodeParts_length_ne now h
    · rw [if_neg hc]
  exact ⟨hd, by simp [onMessage, hd]⟩

/-- Witness for C3: the spec's missing-opening-brace example. -/
theorem decode_malformed_dropped_witness :
    decodeMessage 0 "2024-01-01 12:30:45;35;220.0\x7d" = none ∧
    onMessage 0 "2024-01-01 12:30:45;35;220.0\x7d" = [] :=
  decode_malformed_dropped 0 "2024-01-01 12:30:45;35;220.0\x7d" (Or.inl (by decide))

/-- C4: every well-framed payload (brace wrapper plus exactly 3 fields)
produces a reading: a non-numeric intensity or voltage leaves only that
field absent, and an unparsable timestamp is replaced by the current
wall-clock time; neither condition drops the reading. -/
theorem decode_lenient_fields (now : Nat) (payload : String) (p0 p1 p2 : List Char)
    (hw : payload.toList.head? = some '{' ∧ payload.toList.getLast? = some '}')
    (hp : splitOnChar ';' ((payload.toList.drop 1).dropLast) = [p0, p1, p2]) :
    ∃ d : SensorData, decodeMessage now payload = some d ∧
      d.intensity = parseFloat (stripChars p1) ∧
      d.voltage = parseFloat (stripChars p2) ∧
      (parseFloat (stripChars p1) = none → d.intensity = none) ∧
      (parseFloat (stripChars p2) = none → d.voltage = none) ∧
      (parseTimestamp (stripChars p0) = none → d.timestamp = now) ∧
      (∀ t, parseTimestamp (stripChars p0) = some t → d.timestamp = t) := by
  refine ⟨⟨(parseTimestamp (stripChars p0)).getD now, parseFloat (stripChars p1),
    parseFloat (stripChars p2), (deriveStates (parseFloat (stripChars p2))).1,
    (deriveStates (parseFloat (stripChars p2))).2⟩, ?_, rfl, rfl, ?_, ?_, ?_, ?_⟩
  · unfold decodeMessage
    rw [if_pos hw, hp]
    rfl
  · intro h; exact h
  · intro h; exact h
  · intro h; simp [h]
  · intro t h; simp [h]

/-- Witness for C4: a well-framed payload with an unparsable timestamp and a
non-numeric intensity still produces a reading, with voltage 220. -/
theorem decode_lenient_fields_witness :
    ∃ d : SensorData, decodeMessage 7 "\x7bxx;abc;220.0\x7d" = some d ∧
      d.intensity = parseFloat (stripChars "abc".toList) ∧
      d.voltage = parseFloat (stripChars "220.0".toList) ∧
      (parseFloat (stripChars "abc".toList) = none → d.intensity = none) ∧
      (parseFloat (stripChars "220.0".toList) = none → d.voltage = none) ∧
      (parseTimestamp (stripChars "xx".toList) = none → d.timestamp = 7) ∧
      (∀ t, parseTimestamp (stripChars "xx".toList) = some t → d.timestamp = t) :=
  decode_lenient_fields 7 "\x7bxx;abc;220.0\x7d" "xx".toList "abc".toList "220.0".toList
    (by decide) (by decide)

/-- C2: for every decoded reading, relay and lamp state are the pure
function of the voltage field: exactly 0.0 gives relay off and lamp on,
exactly 220.0 gives relay active and lamp off, and any other value —
including an absent voltage — gives both "UNKNOWN".  ("MATI", "MENYALA" and
"AKTIF" are the source's Indonesian strings for OFF, ON and ACTIVE.) -/
theorem decode_state_pure_function (now : Nat) (payload : String) (d : SensorData)
    (h : decodeMessage now payload = some d) :
    (d.voltage = some 0 → d.relay_state = "MATI" ∧ d.lamp_state = "MENYALA") ∧
    (d.voltage = some 220 → d.relay_state = "AKTIF" ∧ d.lamp_state = "MATI") ∧
    (d.voltage ≠ some 0 → d.voltage ≠ some 220 →
      d.relay_state = "UNKNOWN" ∧ d.lamp_state = "UNKNOWN") := by
  have hs : d.relay_state = (deriveStates d.voltage).1 ∧
      d.lamp_state = (deriveStates d.voltage).2 := by
    unfold decodeMessage at h
    by_cases hc : (payload.toList.head? = some '{' ∧ payload.toList.getLast? = some '}')
    · rw [if_pos hc] at h
      exact decodeParts_derives _ _ _ h
    · rw [if_neg hc] at h
      exact absurd h (by simp)
  refine ⟨?_, ?_, ?_⟩
  · intro hv
    rw [hs.1, hs.2, hv]
    unfold deriveStates
    rw [if_pos rfl]
    exact ⟨rfl, rfl⟩
  · intro hv
    rw [hs.1, hs.2, hv]
    unfold deriveStates
    rw [if_neg (by norm_num), if_pos rfl]
    exact ⟨rfl, rfl⟩
  · intro h0 h220
    rw [hs.1, hs.2]
    unfold deriveStates
    rw [if_neg h0, if_neg h220]
    exact ⟨rfl, rfl⟩

/-- Witness for C2: a reading with voltage exactly 0.0 yields relay "MATI"
(off) and lamp "MENYALA" (on). -/
theorem decode_state_pure_function_witness :
    decodeMessage 7 "\x7bx;10;0.0\x7d" = some ⟨7, some 10, some 0, "MATI", "MENYALA"⟩ ∧
    (SensorData.mk 7 (some 10) (some 0) "MATI" "MENYALA").relay_state = "MATI" ∧
    (SensorData.mk 7 (some 10) (some 0) "MATI" "MENYALA").lamp_state = "MENYALA" := by
  have h : decodeMessage 7 "\x7bx;10;0.0\x7d" = some ⟨7, some 10, some 0, "MATI", "MENYALA"⟩ := by
    with_unfolding_all decide
  exact ⟨h, (decode_state_pure_function 7 _ _ h).1 rfl⟩

/-- Counterexample for C5 as stated: with intensities [1, 2, 2] the engine
returns 1.7 (the value rounded to one decimal), not the arithmetic
mean 5/3. -/
theorem calculate_statistics_mean_cex :
    (calculate_statistics c5log).avg_intensity = 17/10 ∧
    specAvgPresent (c5log.map (fun r => r.intensity)) = 5/3 ∧
    (calculate_statistics c5log).avg_intensity
      ≠ specAvgPresent (c5log.map (fun r => r.intensity)) := by
  refine ⟨?_, ?_, ?_⟩ <;> with_unfolding_all decide

/-- C5 (amended): the engine's avgIntensity equals the arithmetic mean of
the present intensity values — absent values excluded from numerator and
denominator, 0 when none are present — rounded to one decimal place
(ties to even); likewise avgVoltage over the present voltage values. -/
theorem calculate_statistics_avg_rounded (logs : List Row) :
    (calculate_statistics logs).avg_intensity
        = round1 (specAvgPresent (logs.map (fun r => r.intensity))) ∧
    (calculate_statistics logs).avg_voltage
        = round1 (specAvgPresent (logs.map (fun r => r.voltage))) := by
  have key : ∀ l : List (Option ℚ),
      (if l.all (fun v => v.isNone) then (0 : ℚ) else seriesMean l) = specAvgPresent l := by
    intro l
    unfold specAvgPresent seriesMean
    rw [filterMap_id_isEmpty]
  by_cases hl : logs.isEmpty
  · rw [List.isEmpty_iff.mp hl]
    constructor
    · show (0 : ℚ) = round1 (specAvgPresent [])
      rw [show specAvgPresent [] = 0 from rfl, round1_zero]
    · show (0 : ℚ) = round1 (specAvgPresent [])
      rw [show specAvgPresent [] = 0 from rfl, round1_zero]
  · unfold calculate_statistics
    rw [if_neg hl]
    dsimp only
    rw [key, key]
    exact ⟨rfl, rfl⟩

/-- Counterexample for C6 as stated: the most recently appended reading of
`c6log` has timestamp 1, but the engine reports timestamp 2 — it takes the
column maximum, not the last-appended entry. -/
theorem calculate_statistics_latest_cex :
    (c6log.getLast?).map (fun r => r.timestamp) = some 1 ∧
    (calculate_statistics c6log).latest_timestamp = TsOut.time 2 ∧
    TsOut.time 2 ≠ TsOut.time 1 := by
  refine ⟨?_, ?_, ?_⟩ <;> with_unfolding_all decide

/-- C6 (amended): for a non-empty log, latestTimestamp is the maximum
timestamp over all entries (the chronologically latest — equal to the
last-appended entry's timestamp only when timestamps arrive in
nondecreasing order); for an empty log it is the "N/A" sentinel. -/
theorem calculate_statistics_latest_max (logs : List Row) :
    (logs = [] → (calculate_statistics logs).latest_timestamp = TsOut.na) ∧
    (logs ≠ [] → ∃ t : Nat,
      (calculate_statistics logs).latest_timestamp = TsOut.time t ∧
      (∃ r ∈ logs, r.timestamp = t) ∧ ∀ r ∈ logs, r.timestamp ≤ t) := by
  constructor
  · intro h; subst h; rfl
  · intro h
    have hne : ¬ (logs.isEmpty = true) := by simpa [List.isEmpty_iff] using h
    refine ⟨maxTimestamp logs, ?_, ?_, ?_⟩
    · unfold calculate_statistics
      rw [if_neg hne]
    · rcases foldl_max_mem (logs.map (fun r => r.timestamp)) 0 with h0 | hm
      · rcases logs with _ | ⟨r, t⟩
        · exact absurd rfl h
        · refine ⟨r, List.mem_cons_self r t, ?_⟩
          have hle : r.timestamp ≤ maxTimestamp (r :: t) := by
            rw [maxTimestamp_eq]
            exact foldl_max_ge_mem _ 0 r.timestamp (by simp)
          rw [maxTimestamp_eq, h0]
          rw [maxTimestamp_eq, h0] at hle
          omega
      · rw [maxTimestamp_eq]
        rcases List.mem_map.mp hm with ⟨r, hr, ht⟩
        exact ⟨r, hr, ht⟩
    · intro r hr
      rw [maxTimestamp_eq]
      exact foldl_max_ge_mem _ 0 r.timestamp (List.mem_map_of_mem _ hr)

/-- Witness for the amended C6 at the concrete log `c6log`. -/
theorem calculate_statistics_latest_max_witness :
    c6log ≠ [] ∧ ∃ t : Nat,
      (calculate_statistics c6log).latest_timestamp = TsOut.time t ∧
      (∃ r ∈ c6log, r.timestamp = t) ∧ ∀ r ∈ c6log, r.timestamp ≤ t :=
  ⟨by decide, (calculate_statistics_latest_max c6log).2 (by decide)⟩

/-- Witness for C9 at result codes 0 and 7. -/
theorem on_connect_cases_witness :
    on_connect 0 = ⟨[MQTT_TOPIC_SENSOR], [Item.status true "✅ Terhubung ke broker"]⟩ ∧
    (∃ m : String, on_connect 7 = ⟨[], [Item.status false m]⟩ ∧
      ∃ a b : String,
        m = a ++ (if 7 = 1 then "Incorrect protocol version"
          else if 7 = 2 then "Invalid client identifier"
          else if 7 = 3 then "Server unavailable"
          else if 7 = 4 then "Bad username or password"
          else if 7 = 5 then "Not authorized"
          else "Error code: " ++ toString 7) ++ b) :=
  ⟨(on_connect_cases 0).1 rfl, (on_connect_cases 7).2 (by decide)⟩

lemma takeLast_of_le {α : Type} {l : List α} {n : Nat} (h : l.length ≤ n) :
    takeLast n l = l := by
  unfold takeLast
  rw [Nat.sub_eq_zero_of_le h, List.drop_zero]

lemma takeLast_length_le {α : Type} (n : Nat) (l : List α) : (takeLast n l).length ≤ n := by
  unfold takeLast
  rw [List.length_drop]
  omega

lemma takeLast_append_left {α : Type} (n : Nat) (xs ys : List α) :
    takeLast n (takeLast n xs ++ ys) = takeLast n (xs ++ ys) := by
  by_cases h : xs.length ≤ n
  · rw [takeLast_of_le h]
  · push_neg at h
    unfold takeLast
    rw [List.length_append, List.length_drop, List.length_append,
      ← List.drop_append_of_le_length (Nat.sub_le xs.length n), List.drop_drop]
    congr 1
    omega

lemma applyItem_sensor_logs (s : AppState) (d : SensorData) :
    ((applyItem s (Item.sensor d)).1).logs = takeLast 5000 (s.logs ++ [mkRow d]) := by
  simp only [applyItem]
  by_cases h : (s.logs ++ [mkRow d]).length > 5000
  · rw [if_pos h]
  · rw [if_neg h]
    rw [takeLast_of_le (by omega)]

lemma sensorRows_cons_status (c : Bool) (m : String) (t : List Item) :
    sensorRows (Item.status c m :: t) = sensorRows t := by
  simp [sensorRows]

lemma sensorRows_cons_error (m : String) (t : List Item) :
    sensorRows (Item.error m :: t) = sensorRows t := by
  simp [sensorRows]

lemma sensorRows_cons_other (t : List Item) :
    sensorRows (Item.other :: t) = sensorRows t := by
  simp [sensorRows]

lemma sensorRows_cons_sensor (d : SensorData) (t : List Item) :
    sensorRows (Item.sensor d :: t) = mkRow d :: sensorRows t := by
  simp [sensorRows]

lemma process_queue_loop_logs (items : List Item) :
    ∀ (s : AppState) (u : Bool), s.logs.length ≤ 5000 →
      ((process_queue_loop s u items).1).logs
        = takeLast 5000 (s.logs ++ sensorRows items) := by
  induction items with
  | nil =>
      intro s u h
      simp only [process_queue_loop, sensorRows, List.filterMap_nil, List.append_nil]
      exact (takeLast_of_le h).symm
  | cons i t ih =>
      intro s u h
      simp only [process_queue_loop]
      cases i with
      | status c m =>
          rw [ih ((applyItem s (Item.status c m)).1) (u || (applyItem s (Item.status c m)).2) h,
            sensorRows_cons_status]
          rfl
      | error m =>
          rw [ih ((applyItem s (Item.error m)).1) (u || (applyItem s (Item.error m)).2) h,
            sensorRows_cons_error]
          rfl
      | other =>
          rw [ih ((applyItem s Item.other).1) (u || (applyItem s Item.other).2) h,
            sensorRows_cons_other]
          rfl
      | sensor d =>
          have hlen : ((applyItem s (Item.sensor d)).1).logs.length ≤ 5000 := by
            rw [applyItem_sensor_logs]
            exact takeLast_length_le _ _
          rw [ih _ _ hlen, applyItem_sensor_logs, takeLast_append_left,
            sensorRows_cons_sensor]
          simp [List.append_assoc]

/-- C1: starting from the initial state, after draining any event sequence
the reading log holds exactly the last 5000 sensor rows in their arrival
order — oldest entries evicted first — so its length is the minimum of 5000
and the number of readings, and in particular never exceeds the
capacity 5000. -/
theorem reading_log_bounded_fifo (items : List Item) :
    (process_queue initState items).1.logs
        = (sensorRows items).drop ((sensorRows items).length - 5000) ∧
    (process_queue initState items).1.logs.length
        = Nat.min 5000 (sensorRows items).length ∧
    (process_queue initState items).1.logs.length ≤ 5000 := by
  have h : (process_queue initState items).1.logs = takeLast 5000 (sensorRows items) := by
    unfold process_queue
    rw [process_queue_loop_logs items initState false (by decide)]
    rfl
  refine ⟨h, ?_, ?_⟩
  · rw [h]
    unfold takeLast
    rw [List.length_drop]
    rcases Nat.le_total (sensorRows items).length 5000 with hc | hc
    · rw [show Nat.min 5000 (sensorRows items).length = (sensorRows items).length from
        Nat.min_eq_right hc]
      omega
    · rw [show Nat.min 5000 (sensorRows items).length = 5000 from Nat.min_eq_left hc]
      omega
  · rw [h]
    exact takeLast_length_le _ _

end Dashboard
